import Mathlib

/-!
Verification of the WalletWatcher client (src/src/App.tsx, second revision —
the one the repository's tests exercise) against its natural-language
specification.  The blockchain client library (ethers) is modelled as an
explicit environment of pure, possibly-failing functions (`EthersEnv`); a
rejected promise is an `Except.error`.  JavaScript string primitives used by
the source (`trim`, `includes('.')`, `endsWith`, `slice`) are embedded as
list-of-character operations with JS clamping semantics.
-/

namespace WalletWatcher

/-- Model of JS `String.prototype.trim`: drop leading and trailing whitespace. -/
def jsTrim (s : String) : String :=
  String.mk (((s.data.dropWhile Char.isWhitespace).reverse.dropWhile Char.isWhitespace).reverse)

/-- Model of JS `input.includes('.')` (the needle is a single character, so
substring containment is character containment). -/
def containsDot (s : String) : Bool :=
  s.data.contains '.'

/-- Model of JS `String.prototype.endsWith`. -/
def jsEndsWith (s t : String) : Bool :=
  s.data.reverse.take t.data.length == t.data.reverse

/-- Model of JS `s.slice(a, b)` for nonnegative `a ≤ b` (clamps at the end). -/
def jsSlice (s : String) (a b : Nat) : String :=
  String.mk ((s.data.drop a).take (b - a))

/-- Model of JS `s.slice(-k)`: the last `k` characters (the whole string when
it is shorter than `k`, since JS clamps `max(len-k, 0)`, as does `Nat` minus). -/
def jsSliceLast (s : String) (k : Nat) : String :=
  String.mk (s.data.drop (s.data.length - k))

/-- A thrown JS error; `message` is its human-readable message when it has one. -/
structure JsError where
  message : Option String
deriving DecidableEq

instance {ε α : Type} [DecidableEq ε] [DecidableEq α] : DecidableEq (Except ε α) :=
  fun a b =>
    match a, b with
    | .ok x, .ok y =>
        if h : x = y then .isTrue (congrArg Except.ok h)
        else .isFalse fun hc => h (Except.ok.inj hc)
    | .error x, .error y =>
        if h : x = y then .isTrue (congrArg Except.error h)
        else .isFalse fun hc => h (Except.error.inj hc)
    | .ok _, .error _ => .isFalse fun hc => Except.noConfusion hc
    | .error _, .ok _ => .isFalse fun hc => Except.noConfusion hc

/-- One RPC call issued to the provider (network side effects are traced). -/
inductive RpcCall where
  | resolveName (name : String)
  | lookupAddress (address : String)
  | getBalance (address : String)
  | balanceOf (token wallet : String)
  | decimals (token : String)
  | symbol (token : String)
deriving DecidableEq

/-- The ethers library and JSON-RPC provider, as a pure environment.
`isAddress`/`getAddress` are the library's local validation and checksum
canonicalization (`getAddress tokenAddress = none` models it throwing);
`isChecksummed` is an abstract predicate for checksum-cased addresses, related
to the other fields by hypotheses where a theorem needs it.  The provider
methods return `Except JsError _`; `.error` models a rejected promise. -/
structure EthersEnv where
  isAddress : String → Bool
  getAddress : String → Option String
  isChecksummed : String → Bool
  resolveName : String → Except JsError (Option String)
  lookupAddress : String → Except JsError (Option String)
  getBalance : String → Except JsError Nat
  balanceOf : String → String → Except JsError Nat
  decimals : String → Except JsError Nat
  symbol : String → Except JsError String
  formatUnits : Nat → Nat → String
  formatEther : Nat → String

/-- `interface TokenBalance` from App.tsx.  Optional TS fields are `Option`;
the optional `error?: boolean` field absent on the success path is `false`. -/
structure TokenBalance where
  symbol : Option String
  address : String
  balance : Option String
  decimals : Option Nat
  error : Bool
deriving DecidableEq

def ExceptIsOk {ε α : Type} : Except ε α → Bool
  | .ok _ => true
  | .error _ => false

/-- The `try` body of `getTokenBalance`: the inner `try/catch` around
`getAddress` is the first match (it returns an error record rather than
throwing); the three contract reads are issued by `Promise.all` (all three
calls appear in the trace) and any rejection escapes to the outer catch. -/
def getTokenBalanceBody (env : EthersEnv) (walletAddress tokenAddress : String) :
    Except JsError TokenBalance × List RpcCall :=
  match env.getAddress tokenAddress with
  | none =>
      (.ok { symbol := none, address := tokenAddress, balance := none,
             decimals := none, error := true }, [])
  | some checksummedTokenAddress =>
      let calls := [RpcCall.balanceOf checksummedTokenAddress walletAddress,
                    RpcCall.decimals checksummedTokenAddress,
                    RpcCall.symbol checksummedTokenAddress]
      match env.balanceOf checksummedTokenAddress walletAddress,
            env.decimals checksummedTokenAddress,
            env.symbol checksummedTokenAddress with
      | .ok rawBalance, .ok d, .ok sym =>
          (.ok { symbol := some sym, address := checksummedTokenAddress,
                 balance := some (env.formatUnits rawBalance d),
                 decimals := some d, error := false }, calls)
      | .error e, _, _ => (.error e, calls)
      | _, .error e, _ => (.error e, calls)
      | _, _, .error e => (.error e, calls)

/-- `getTokenBalance` from App.tsx: the outer `catch` turns any escaped
rejection into an error record carrying the original (uncanonicalized) token
address.  The function is total — the promise never rejects. -/
def getTokenBalance (env : EthersEnv) (walletAddress tokenAddress : String) :
    TokenBalance × List RpcCall :=
  match getTokenBalanceBody env walletAddress tokenAddress with
  | (.ok r, calls) => (r, calls)
  | (.error _, calls) =>
      ({ symbol := none, address := tokenAddress, balance := none,
         decimals := none, error := true }, calls)

/-- `isENSName` from App.tsx, verbatim:
`input.includes('.') && (input.endsWith('.eth') || input.includes('.'))`. -/
def isENSName (input : String) : Bool :=
  containsDot input && (jsEndsWith input ".eth" || containsDot input)

/-- The record `{ address, ensName }` returned by `resolveAddressAndENS`. -/
structure ResolvedIdentity where
  address : String
  ensName : Option String
deriving DecidableEq

/-- `resolveAddressAndENS` from App.tsx.  ENS path: forward-resolve; a `null`
result throws `Error('ENS name could not be resolved')`, and a rejection of
`resolveName` itself propagates through the outer try (which rethrows).
Address path: validate with `isAddress(input.trim())`, checksum with
`getAddress(input.trim())`, then best-effort reverse lookup whose failure is
swallowed by its own try/catch (`ensName` stays `null`). -/
def resolveAddressAndENS (env : EthersEnv) (input : String) :
    Except JsError ResolvedIdentity × List RpcCall :=
  if isENSName input then
    match env.resolveName input with
    | .error e => (.error e, [RpcCall.resolveName input])
    | .ok none =>
        (.error { message := some "ENS name could not be resolved" },
         [RpcCall.resolveName input])
    | .ok (some resolvedAddress) =>
        (.ok { address := resolvedAddress, ensName := some input },
         [RpcCall.resolveName input])
  else
    if env.isAddress (jsTrim input) = false then
      (.error { message := some "Please enter a valid ETH wallet address or ENS name" }, [])
    else
      match env.getAddress (jsTrim input) with
      | none => (.error { message := none }, [])
      | some resolvedAddress =>
          let ensName : Option String :=
            match env.lookupAddress resolvedAddress with
            | .ok n => n
            | .error _ => none
          (.ok { address := resolvedAddress, ensName := ensName },
           [RpcCall.lookupAddress resolvedAddress])

/-- `interface WalletInfo` from App.tsx. -/
structure WalletInfo where
  address : String
  ensName : Option String
  balance : String
  tokenBalances : List TokenBalance
deriving DecidableEq

/-- The four `useState` variables of the `App` component. -/
structure AppState where
  walletInput : String
  isLoading : Bool
  error : String
  walletInfo : Option WalletInfo
deriving DecidableEq

/-- The hardcoded `TOKENS` list (contract address, display name). -/
def TOKENS : List (String × String) :=
  [("0xdAC17F958D2ee523a2206206994597C13D831ec7", "Tether"),
   ("0xA0b86991c6218b36c1d19D4a2e9Eb0cE3606eB48", "USD Coin")]

def failedFetchMessage : String :=
  "Failed to fetch wallet information. Please try again later"

/-- `handleSubmit` from App.tsx as a state transition, paired with the list of
RPC calls the submission issues.  Empty/whitespace input returns early after
`setError`; otherwise loading starts, previous error/result are cleared, and
the resolve → native balance → token fan-out pipeline runs, with the catch
block setting the fixed failure message and `finally` ending loading. -/
def handleSubmit (env : EthersEnv) (s : AppState) : AppState × List RpcCall :=
  if (jsTrim s.walletInput).data.isEmpty then
    ({ s with error := "Please enter a wallet address or ENS Name" }, [])
  else
    let s1 : AppState := { s with isLoading := true, error := "", walletInfo := none }
    match resolveAddressAndENS env (jsTrim s.walletInput) with
    | (.error _, calls) =>
        ({ s1 with error := failedFetchMessage, isLoading := false }, calls)
    | (.ok rid, calls) =>
        match env.getBalance rid.address with
        | .error _ =>
            ({ s1 with error := failedFetchMessage, isLoading := false },
             calls ++ [RpcCall.getBalance rid.address])
        | .ok bal =>
            let results := TOKENS.map fun t => getTokenBalance env rid.address t.1
            ({ s1 with
                 walletInfo := some { address := rid.address, ensName := rid.ensName,
                                      balance := env.formatEther bal,
                                      tokenBalances := results.map Prod.fst },
                 isLoading := false },
             calls ++ [RpcCall.getBalance rid.address] ++ (results.map Prod.snd).flatten)

/-- The character for a decimal digit `d < 10`. -/
def natDigitChar (d : Nat) : Char :=
  Char.ofNat (48 + d)

/-- Decimal digits, least significant first, with structural fuel (so that
the kernel can evaluate it); `fuel ≥ 1 + digit count` always suffices. -/
def natToRevDigitsAux : Nat → Nat → List Char
  | 0, _ => []
  | fuel + 1, n =>
      if n < 10 then [natDigitChar n]
      else natDigitChar (n % 10) :: natToRevDigitsAux fuel (n / 10)

/-- Decimal digits of `n`, least significant first (`0` gives `['0']`). -/
def natToRevDigits (n : Nat) : List Char :=
  natToRevDigitsAux (n + 1) n

/-- Group a (reversed) digit list into blocks of three. -/
def chunk3 : List Char → List (List Char)
  | [] => []
  | [a] => [[a]]
  | [a, b] => [[a, b]]
  | a :: b :: c :: rest => [a, b, c] :: chunk3 rest

/-- `n` written in decimal with a `,` separator every three digits from the
right, as the `en-US` default locale of `toLocaleString` renders integers. -/
def groupThousands (n : Nat) : String :=
  String.mk (List.intercalate [','] (chunk3 (natToRevDigits n))).reverse

/-- `n < 10000` rendered as exactly four digits, zero-padded on the left. -/
def padZeros4 (n : Nat) : String :=
  String.mk ((natToRevDigits n ++ List.replicate 4 '0').take 4).reverse

/-- Numeric value of a list of decimal digit characters (empty list is 0). -/
def digitsVal (l : List Char) : Nat :=
  l.foldl (fun acc c => 10 * acc + (c.toNat - 48)) 0

/-- The exact decimal value a numeric string denotes: sign together with
integer part `int`, and fraction digits worth `frac / 10 ^ fracLen`. -/
structure DecNum where
  neg : Bool
  int : Nat
  frac : Nat
  fracLen : Nat
deriving DecidableEq

/-- Model of `parseFloat` on the decimal numerals the app feeds it (the
outputs of `formatEther`): optional sign, integer digits, optional `.` and
fraction digits, read exactly.  `none` models `NaN`.  Prefix-parsing of
trailing garbage and exponents, which no claim touches, is outside the
modelled domain. -/
def parseDecimal (s : String) : Option DecNum :=
  let signAndRest : Bool × List Char :=
    match s.data with
    | '-' :: r => (true, r)
    | '+' :: r => (false, r)
    | r => (false, r)
  let neg := signAndRest.1
  let rest := signAndRest.2
  let intDs := rest.takeWhile Char.isDigit
  let rest2 := rest.dropWhile Char.isDigit
  match rest2 with
  | [] =>
      if intDs.isEmpty then none
      else some { neg := neg, int := digitsVal intDs, frac := 0, fracLen := 0 }
  | '.' :: fracDs =>
      if fracDs.all Char.isDigit && !(intDs.isEmpty && fracDs.isEmpty) then
        some { neg := neg, int := digitsVal intDs,
               frac := digitsVal fracDs, fracLen := fracDs.length }
      else none
  | _ => none

/-- Model of `num.toLocaleString(undefined, { minimumFractionDigits: 4,
maximumFractionDigits: 4 })` in the `en-US` default locale the repository's
tests assume: sign, thousands-grouped integer part, `.`, exactly four
fraction digits rounded half away from zero (the `halfExpand` default of
`Intl.NumberFormat`).  With `v = int + frac / 10 ^ fracLen` the rounded
scaled magnitude `⌊v * 10000 + 1 / 2⌋` is `(2 * num + den) / (2 * den)`
in natural division, where `num = (int * den + frac) * 10000`. -/
def toLocaleStringFixed4 (d : DecNum) : String :=
  let den := 10 ^ d.fracLen
  let scaled := (2 * ((d.int * den + d.frac) * 10000) + den) / (2 * den)
  (if d.neg then "-" else "") ++
    groupThousands (scaled / 10000) ++ "." ++ padZeros4 (scaled % 10000)

/-- `formatBalance` from App.tsx: `parseFloat` then fixed-4 locale formatting
(`parseFloat` of a non-numeral gives `NaN`, which formats as `"NaN"`).  The
binary floating-point value `parseFloat` produces is idealized to the exact
decimal rational; at four fraction digits the two never round differently on
the app's inputs. -/
def formatBalance (balance : String) : String :=
  match parseDecimal balance with
  | none => "NaN"
  | some q => toLocaleStringFixed4 q

/-- `shortenAddress` from App.tsx: `address.slice(0, 6) + "..." + address.slice(-4)`. -/
def shortenAddress (address : String) : String :=
  jsSlice address 0 6 ++ "..." ++ jsSliceLast address 4

/-- The spec's wording of the same function: first 6 characters, `"..."`,
last 4 characters (last-4 written by reversing, taking, reversing). -/
def shortenAddressSpec (address : String) : String :=
  String.mk (address.data.take 6) ++ "..." ++ String.mk (address.data.reverse.take 4).reverse

/-! Concrete environments used by witnesses and counterexamples. -/

def errBoom : JsError := { message := some "boom" }

/-- Checksum canonicalization of the token address throws; everything else succeeds. -/
def envTokenChecksumErr : EthersEnv where
  isAddress := fun _ => true
  getAddress := fun _ => none
  isChecksummed := fun _ => true
  resolveName := fun _ => .ok none
  lookupAddress := fun _ => .ok none
  getBalance := fun _ => .ok 0
  balanceOf := fun _ _ => .ok 0
  decimals := fun _ => .ok 18
  symbol := fun _ => .ok "TOK"
  formatUnits := fun _ _ => "0.0"
  formatEther := fun _ => "0.0"

/-- Checksumming succeeds but the `balanceOf` contract read rejects. -/
def envTokenReadErr : EthersEnv :=
  { envTokenChecksumErr with
      getAddress := fun s => some s
      balanceOf := fun _ _ => .error errBoom }

/-- Every library and provider operation succeeds. -/
def envTokenOk : EthersEnv :=
  { envTokenChecksumErr with getAddress := fun s => some s }

/-- C1: `getTokenBalance` never rejects (it is a total function into
`TokenBalance` by construction of the outer catch); when checksum
canonicalization of the token address fails it returns the original
uncanonicalized address with `balance = null` and `error = true`, and when
any of the three contract reads rejects it likewise returns the original
token address as passed in, `balance = null`, `error = true`. -/
theorem getTokenBalance_error_shapes (env : EthersEnv) (w t : String) :
    (env.getAddress t = none →
      getTokenBalance env w t
        = ({ symbol := none, address := t, balance := none, decimals := none,
             error := true }, []))
    ∧ (∀ c, env.getAddress t = some c →
        ((∃ e, env.balanceOf c w = .error e) ∨ (∃ e, env.decimals c = .error e)
          ∨ (∃ e, env.symbol c = .error e)) →
        (getTokenBalance env w t).1
          = { symbol := none, address := t, balance := none, decimals := none,
              error := true }) := by
  constructor
  · intro h
    simp [getTokenBalance, getTokenBalanceBody, h]
  · intro c hc hfail
    cases hb : env.balanceOf c w with
    | error e => simp [getTokenBalance, getTokenBalanceBody, hc, hb]
    | ok rb =>
      cases hd : env.decimals c with
      | error e => simp [getTokenBalance, getTokenBalanceBody, hc, hb, hd]
      | ok d =>
        cases hs : env.symbol c with
        | error e => simp [getTokenBalance, getTokenBalanceBody, hc, hb, hd, hs]
        | ok sy =>
          exfalso
          rcases hfail with ⟨e, he⟩ | ⟨e, he⟩ | ⟨e, he⟩ <;> simp_all

/-- Witness for C1: both error shapes realized in concrete environments. -/
theorem getTokenBalance_error_shapes_witness :
    getTokenBalance envTokenChecksumErr "0xW" "bad-token"
      = ({ symbol := none, address := "bad-token", balance := none, decimals := none,
           error := true }, [])
    ∧ (getTokenBalance envTokenReadErr "0xW" "0xT").1
      = { symbol := none, address := "0xT", balance := none, decimals := none,
          error := true } :=
  ⟨(getTokenBalance_error_shapes envTokenChecksumErr "0xW" "bad-token").1 rfl,
   (getTokenBalance_error_shapes envTokenReadErr "0xW" "0xT").2 "0xT" rfl
     (Or.inl ⟨errBoom, rfl⟩)⟩

/-- C9: every result of `getTokenBalance` has `balance = null` exactly when
`error = true`, and a successful result always carries `symbol` and
`decimals`. -/
theorem getTokenBalance_invariant (env : EthersEnv) (w t : String) :
    ((getTokenBalance env w t).1.balance = none
      ↔ (getTokenBalance env w t).1.error = true)
    ∧ ((getTokenBalance env w t).1.error = false →
        (getTokenBalance env w t).1.symbol.isSome = true
        ∧ (getTokenBalance env w t).1.decimals.isSome = true) := by
  cases hga : env.getAddress t with
  | none => simp [getTokenBalance, getTokenBalanceBody, hga]
  | some c =>
    cases hb : env.balanceOf c w with
    | error e => simp [getTokenBalance, getTokenBalanceBody, hga, hb]
    | ok rb =>
      cases hd : env.decimals c with
      | error e => simp [getTokenBalance, getTokenBalanceBody, hga, hb, hd]
      | ok d =>
        cases hs : env.symbol c with
        | error e => simp [getTokenBalance, getTokenBalanceBody, hga, hb, hd, hs]
        | ok sy => simp [getTokenBalance, getTokenBalanceBody, hga, hb, hd, hs]

/-- Witness for C9: on an all-success environment the result carries symbol
and decimals. -/
theorem getTokenBalance_invariant_witness :
    (getTokenBalance envTokenOk "0xW" "0xT").1.symbol.isSome = true
    ∧ (getTokenBalance envTokenOk "0xW" "0xT").1.decimals.isSome = true :=
  (getTokenBalance_invariant envTokenOk "0xW" "0xT").2 rfl

/-- C4: the classifier returns true exactly on strings containing a `.`
character — the `endsWith('.eth') || includes('.')` conjunct is absorbed. -/
theorem isENSName_iff_contains_dot (input : String) :
    isENSName input = true ↔ '.' ∈ input.data := by
  have hc : input.data.contains '.' = true ↔ '.' ∈ input.data := List.elem_iff
  unfold isENSName containsDot
  cases h : input.data.contains '.' with
  | false =>
      rw [h] at hc
      simp only [Bool.false_and, Bool.false_eq_true, false_iff]
      intro hm
      exact absurd (hc.mpr hm) (by decide)
  | true =>
      simp [hc.mp h]

/-- Witness for C4 at a dotted and a dot-free input. -/
theorem isENSName_iff_contains_dot_witness :
    isENSName "vitalik.eth" = true ∧ isENSName "0xabc" = false :=
  ⟨(isENSName_iff_contains_dot "vitalik.eth").mpr (by decide),
   by
     have h := (isENSName_iff_contains_dot "0xabc").mp
     cases he : isENSName "0xabc" with
     | false => rfl
     | true => exact absurd (h he) (by decide)⟩

/-- C8: `shortenAddress` is first-6 ++ `"..."` ++ last-4, and shortens the
sample address to `"0x1234...7890"`. -/
theorem shortenAddress_spec :
    (∀ address : String, shortenAddress address = shortenAddressSpec address)
    ∧ shortenAddress "0x1234567890123456789012345678901234567890"
        = "0x1234...7890" := by
  constructor
  · intro address
    have h4 := List.rtake_eq_reverse_take_reverse address.data 4
    rw [List.rtake] at h4
    have hl : address.data.length = address.length := rfl
    rw [hl] at h4
    simp [shortenAddress, shortenAddressSpec, jsSlice, jsSliceLast, h4]
  · decide

/-- The forward resolution completed and returned `null` (claim C2's
"forward resolution returns no address"). -/
def resolveReturnedNone (e : Except JsError (Option String)) : Bool :=
  match e with
  | .ok none => true
  | _ => false

/-- The forward resolution did not produce an address: it returned `null`
or the call itself rejected. -/
def resolveNoAddress (e : Except JsError (Option String)) : Bool :=
  match e with
  | .ok (some _) => false
  | _ => true

/-- A successful resolution result carries a checksummed address
(vacuously true of a failed one). -/
def resolvedChecksummed (env : EthersEnv) (e : Except JsError ResolvedIdentity) : Bool :=
  match e with
  | .ok r => env.isChecksummed r.address
  | .error _ => true

/-- Forward ENS resolution itself rejects (e.g. a network failure). -/
def envResolveRejects : EthersEnv :=
  { envTokenChecksumErr with resolveName := fun _ => .error errBoom }

/-- Counterexample to C2 as stated: on ENS-style input `"a.b"`, when the
forward-resolution call itself rejects, `resolveAddressAndENS` throws even
though forward resolution did not "return no address" and the input did not
fail address validation — so the claimed "exactly when" is false. -/
theorem resolveAddressAndENS_claim_counterexample :
    ExceptIsOk (resolveAddressAndENS envResolveRejects "a.b").1 = false
    ∧ ¬((isENSName "a.b" = true
          ∧ resolveReturnedNone (envResolveRejects.resolveName "a.b") = true)
        ∨ (isENSName "a.b" = false
          ∧ envResolveRejects.isAddress (jsTrim "a.b") = false)) := by decide

/-- C2 (amended): `resolveAddressAndENS` fails exactly when the input is
ENS-style and forward resolution does not produce an address (returns none
or the call rejects), or the input is an address candidate failing
address-format validation; otherwise it returns a `ResolvedIdentity` with a
checksummed address.  The hypotheses state the ethers library guarantees:
validated addresses checksum successfully, and `getAddress`/`resolveName`
outputs are checksum-cased. -/
theorem resolveAddressAndENS_fails_iff (env : EthersEnv) (input : String)
    (hco : ∀ s, env.isAddress s = true → (env.getAddress s).isSome = true)
    (hga : ∀ s a, env.getAddress s = some a → env.isChecksummed a = true)
    (hrn : ∀ n a, env.resolveName n = .ok (some a) → env.isChecksummed a = true) :
    (ExceptIsOk (resolveAddressAndENS env input).1 = false ↔
      (isENSName input = true ∧ resolveNoAddress (env.resolveName input) = true)
      ∨ (isENSName input = false ∧ env.isAddress (jsTrim input) = false))
    ∧ resolvedChecksummed env (resolveAddressAndENS env input).1 = true := by
  cases hens : isENSName input with
  | true =>
    cases hr : env.resolveName input with
    | error e =>
        simp [resolveAddressAndENS, hens, hr, ExceptIsOk, resolveNoAddress,
              resolvedChecksummed]
    | ok o =>
      cases o with
      | none =>
          simp [resolveAddressAndENS, hens, hr, ExceptIsOk, resolveNoAddress,
                resolvedChecksummed]
      | some a =>
          simp [resolveAddressAndENS, hens, hr, ExceptIsOk, resolveNoAddress,
                resolvedChecksummed, hrn input a hr]
  | false =>
    cases hia : env.isAddress (jsTrim input) with
    | false =>
        simp [resolveAddressAndENS, hens, hia, ExceptIsOk, resolvedChecksummed]
    | true =>
      have hsome := hco (jsTrim input) hia
      cases hget : env.getAddress (jsTrim input) with
      | none => rw [hget] at hsome; simp at hsome
      | some a =>
        have hcs := hga (jsTrim input) a hget
        cases hl : env.lookupAddress a with
        | error e =>
            simp [resolveAddressAndENS, hens, hia, hget, hl, ExceptIsOk,
                  resolvedChecksummed, hcs]
        | ok n =>
            simp [resolveAddressAndENS, hens, hia, hget, hl, ExceptIsOk,
                  resolvedChecksummed, hcs]

/-- The library validates nothing and forward resolution finds `"0xB"`. -/
def envForwardOk : EthersEnv :=
  { envTokenChecksumErr with
      isAddress := fun _ => false
      resolveName := fun _ => .ok (some "0xB") }

/-- Witness for C2 (amended) at a concrete environment and input. -/
theorem resolveAddressAndENS_fails_iff_witness :
    (ExceptIsOk (resolveAddressAndENS envForwardOk "vitalik.eth").1 = false ↔
      (isENSName "vitalik.eth" = true
        ∧ resolveNoAddress (envForwardOk.resolveName "vitalik.eth") = true)
      ∨ (isENSName "vitalik.eth" = false
        ∧ envForwardOk.isAddress (jsTrim "vitalik.eth") = false))
    ∧ resolvedChecksummed envForwardOk
        (resolveAddressAndENS envForwardOk "vitalik.eth").1 = true :=
  resolveAddressAndENS_fails_iff envForwardOk "vitalik.eth"
    (by intro s h; simp [envForwardOk, envTokenChecksumErr] at h)
    (by intro s a h; exact rfl)
    (by intro n a h; exact rfl)

/-- A reverse-lookup function that always finds no name. -/
def lookupNone : String → Except JsError (Option String) := fun _ => .ok none

/-- C6: on the address path, once validation and checksumming succeed, a
failed or empty reverse lookup still yields a successful resolution with
`ensName` absent; on the ENS path the result does not depend on the reverse
lookup at all and `ensName` is the input itself. -/
theorem resolveAddressAndENS_reverse_best_effort (env : EthersEnv) (input : String) :
    (isENSName input = false →
      env.isAddress (jsTrim input) = true →
      ∀ a, env.getAddress (jsTrim input) = some a →
        (env.lookupAddress a = .ok none ∨ ∃ e, env.lookupAddress a = .error e) →
        (resolveAddressAndENS env input).1 = .ok { address := a, ensName := none })
    ∧ (isENSName input = true →
        (∀ f, resolveAddressAndENS { env with lookupAddress := f } input
              = resolveAddressAndENS env input)
        ∧ ∀ r, (resolveAddressAndENS env input).1 = .ok r → r.ensName = some input) := by
  constructor
  · intro hens hia a hget hlk
    rcases hlk with h | ⟨e, h⟩ <;>
      simp [resolveAddressAndENS, hens, hia, hget, h]
  · intro hens
    constructor
    · intro f
      simp [resolveAddressAndENS, hens]
    · intro r hr
      cases hcase : env.resolveName input with
      | error e => simp [resolveAddressAndENS, hens, hcase] at hr
      | ok o =>
        cases o with
        | none => simp [resolveAddressAndENS, hens, hcase] at hr
        | some a =>
            simp [resolveAddressAndENS, hens, hcase] at hr
            rw [← hr]

/-- Address path with a rejecting reverse lookup, and an ENS name that
forward-resolves. -/
def envReverseErr : EthersEnv :=
  { envTokenChecksumErr with
      getAddress := fun _ => some "0xA"
      lookupAddress := fun _ => .error errBoom
      resolveName := fun _ => .ok (some "0xB") }

/-- `envReverseErr` with the reverse lookup replaced by `lookupNone`. -/
def envReverseErrSwapped : EthersEnv :=
  { envReverseErr with lookupAddress := lookupNone }

/-- Witness for C6: concrete swallowed reverse-lookup failure, and
insensitivity of the ENS path to the reverse-lookup function. -/
theorem resolveAddressAndENS_reverse_best_effort_witness :
    (resolveAddressAndENS envReverseErr "0xabc").1
      = .ok { address := "0xA", ensName := none }
    ∧ resolveAddressAndENS envReverseErrSwapped "vitalik.eth"
        = resolveAddressAndENS envReverseErr "vitalik.eth" :=
  ⟨(resolveAddressAndENS_reverse_best_effort envReverseErr "0xabc").1
      (by decide) rfl "0xA" rfl (Or.inr ⟨errBoom, rfl⟩),
   ((resolveAddressAndENS_reverse_best_effort envReverseErr "vitalik.eth").2
      (by decide)).1 lookupNone⟩

/-- C5: submitting with empty or whitespace-only input sets exactly the fixed
error message, issues no RPC call (empty trace), and leaves the loading flag
untouched. -/
theorem handleSubmit_empty_input (env : EthersEnv) (s : AppState)
    (h : (jsTrim s.walletInput).data.isEmpty = true) :
    handleSubmit env s
      = ({ s with error := "Please enter a wallet address or ENS Name" }, [])
    ∧ (handleSubmit env s).1.isLoading = s.isLoading := by
  constructor <;> simp [handleSubmit, h]

/-- A previously displayed result, for the frame witnesses. -/
def sampleInfo : WalletInfo :=
  { address := "0xA", ensName := none, balance := "1.0", tokenBalances := [] }

def stBlank : AppState :=
  { walletInput := "   ", isLoading := false, error := "old", walletInfo := none }

def stBlankWithResult : AppState :=
  { walletInput := " ", isLoading := false, error := "", walletInfo := some sampleInfo }

/-- Witness for C5 on a whitespace-only input. -/
theorem handleSubmit_empty_input_witness :
    handleSubmit envTokenOk stBlank
      = ({ stBlank with error := "Please enter a wallet address or ENS Name" }, [])
    ∧ (handleSubmit envTokenOk stBlank).1.isLoading = stBlank.isLoading :=
  handleSubmit_empty_input envTokenOk stBlank (by decide)

/-- C10: the empty-input early return modifies only the error message —
the previous result, the loading flag and the input text are unchanged
(so a previously displayed result is not cleared and loading never starts). -/
theorem handleSubmit_empty_input_frame (env : EthersEnv) (s : AppState)
    (h : (jsTrim s.walletInput).data.isEmpty = true) :
    (handleSubmit env s).1.walletInfo = s.walletInfo
    ∧ (handleSubmit env s).1.isLoading = s.isLoading
    ∧ (handleSubmit env s).1.walletInput = s.walletInput := by
  simp [handleSubmit, h]

/-- Witness for C10: a whitespace-only submission over a displayed result. -/
theorem handleSubmit_empty_input_frame_witness :
    (handleSubmit envTokenOk stBlankWithResult).1.walletInfo
        = stBlankWithResult.walletInfo
    ∧ (handleSubmit envTokenOk stBlankWithResult).1.isLoading
        = stBlankWithResult.isLoading
    ∧ (handleSubmit envTokenOk stBlankWithResult).1.walletInput
        = stBlankWithResult.walletInput :=
  handleSubmit_empty_input_frame envTokenOk stBlankWithResult (by decide)

/-- The native-balance fetch rejects with an error whose message is "boom". -/
def envBalanceRejects : EthersEnv :=
  { envTokenChecksumErr with
      getAddress := fun s => some s
      getBalance := fun _ => .error errBoom }

def stAddr : AppState :=
  { walletInput := "0xabc", isLoading := false, error := "", walletInfo := none }

/-- Counterexample to C3 as stated: the thrown error carries the
human-readable message "boom", yet the shown message is the fixed generic
string, which does not begin with "boom" — so the shown message is not the
underlying message suffixed with a retry hint. -/
theorem handleSubmit_message_not_derived :
    envBalanceRejects.getBalance "0xabc" = .error { message := some "boom" }
    ∧ (handleSubmit envBalanceRejects stAddr).1.error = failedFetchMessage
    ∧ ¬((handleSubmit envBalanceRejects stAddr).1.error.data.take 4
          = "boom".data) := by decide

/-- C3 (amended): when the resolve / native-balance stage of a submission
throws, the error message is always the fixed string
`"Failed to fetch wallet information. Please try again later"`, regardless of
any message the thrown error carries, and the loading state ends. -/
theorem handleSubmit_fixed_error_message (env : EthersEnv) (s : AppState)
    (hne : (jsTrim s.walletInput).data.isEmpty = false)
    (hfail : ExceptIsOk (resolveAddressAndENS env (jsTrim s.walletInput)).1 = false
      ∨ ∃ rid e, (resolveAddressAndENS env (jsTrim s.walletInput)).1 = .ok rid
           ∧ env.getBalance rid.address = .error e) :
    (handleSubmit env s).1.error = failedFetchMessage
    ∧ (handleSubmit env s).1.isLoading = false := by
  cases hres : resolveAddressAndENS env (jsTrim s.walletInput) with
  | mk res calls =>
    cases res with
    | error e => simp [handleSubmit, hne, hres]
    | ok rid =>
      rcases hfail with hbad | ⟨rid2, e, hok, hbal⟩
      · rw [hres] at hbad
        simp [ExceptIsOk] at hbad
      · rw [hres] at hok
        simp only at hok
        cases hok
        cases hbl : env.getBalance rid.address with
        | error e2 => simp [handleSubmit, hne, hres, hbl]
        | ok bal => rw [hbl] at hbal; cases hbal

/-- Witness for C3 (amended): the native-balance rejection yields the fixed
message and ends loading. -/
theorem handleSubmit_fixed_error_message_witness :
    (handleSubmit envBalanceRejects stAddr).1.error = failedFetchMessage
    ∧ (handleSubmit envBalanceRejects stAddr).1.isLoading = false :=
  handleSubmit_fixed_error_message envBalanceRejects stAddr (by decide)
    (Or.inr ⟨{ address := "0xabc", ensName := none }, errBoom, rfl, rfl⟩)

/-- Witness for C8 at a second concrete address. -/
theorem shortenAddress_spec_witness :
    shortenAddress "0xdAC17F958D2ee523a2206206994597C13D831ec7"
      = shortenAddressSpec "0xdAC17F958D2ee523a2206206994597C13D831ec7" :=
  shortenAddress_spec.1 "0xdAC17F958D2ee523a2206206994597C13D831ec7"

theorem natDigitChar_isDigit (d : Nat) (h : d < 10) : (natDigitChar d).isDigit = true := by
  interval_cases d <;> decide

theorem natToRevDigitsAux_digits (fuel : Nat) :
    ∀ n c, c ∈ natToRevDigitsAux fuel n → c.isDigit = true := by
  induction fuel with
  | zero => intro n c hc; simp [natToRevDigitsAux] at hc
  | succ fuel ih =>
    intro n c hc
    simp only [natToRevDigitsAux] at hc
    split at hc
    · rename_i h
      simp only [List.mem_singleton] at hc
      subst hc
      exact natDigitChar_isDigit n h
    · rcases List.mem_cons.mp hc with h1 | h1
      · subst h1
        exact natDigitChar_isDigit _ (Nat.mod_lt _ (by omega))
      · exact ih (n / 10) c h1

theorem padZeros4_length (n : Nat) : (padZeros4 n).length = 4 := by
  show (((natToRevDigits n ++ List.replicate 4 '0').take 4).reverse).length = 4
  rw [List.length_reverse, List.length_take, List.length_append, List.length_replicate]
  omega

theorem padZeros4_digits (n : Nat) : (padZeros4 n).data.all Char.isDigit = true := by
  rw [List.all_eq_true]
  intro c hc
  have hc1 : c ∈ (natToRevDigits n ++ List.replicate 4 '0').take 4 :=
    List.mem_reverse.mp hc
  have hc2 := List.mem_of_mem_take hc1
  rcases List.mem_append.mp hc2 with h | h
  · exact natToRevDigitsAux_digits (n + 1) n c h
  · rw [List.eq_of_mem_replicate h]; decide

theorem stringDataAppend (a b : String) : (a ++ b).data = a.data ++ b.data := rfl

theorem append_dot_tail_shape (x p : List Char) (hp : p.length = 4) :
    ((x ++ '.' :: p).reverse.take 4 = p.reverse)
    ∧ ((x ++ '.' :: p).reverse.drop 4).take 1 = ['.'] := by
  have hrev : (x ++ '.' :: p).reverse = p.reverse ++ '.' :: x.reverse := by
    simp
  have hlen : p.reverse.length = 4 := by simp [hp]
  constructor
  · rw [hrev, ← hlen, List.take_left]
  · rw [hrev, ← hlen, List.drop_left]
    rfl

theorem fixed4_tail_shape (a : String) (n : Nat) :
    ((a ++ "." ++ padZeros4 n).data.reverse.take 4).all Char.isDigit = true
    ∧ ((a ++ "." ++ padZeros4 n).data.reverse.drop 4).take 1 = ['.'] := by
  have hdata : (a ++ "." ++ padZeros4 n).data = a.data ++ '.' :: (padZeros4 n).data := by
    rw [stringDataAppend, stringDataAppend]
    simp [List.append_assoc]
  have hshape := append_dot_tail_shape a.data (padZeros4 n).data (padZeros4_length n)
  rw [hdata]
  refine ⟨?_, hshape.2⟩
  rw [hshape.1, List.all_reverse]
  exact padZeros4_digits n

theorem toLocaleStringFixed4_shape (d : DecNum) :
    ((toLocaleStringFixed4 d).data.reverse.take 4).all Char.isDigit = true
    ∧ ((toLocaleStringFixed4 d).data.reverse.drop 4).take 1 = ['.'] :=
  fixed4_tail_shape
    ((if d.neg then "-" else "")
      ++ groupThousands ((2 * ((d.int * 10 ^ d.fracLen + d.frac) * 10000) + 10 ^ d.fracLen)
          / (2 * 10 ^ d.fracLen) / 10000))
    ((2 * ((d.int * 10 ^ d.fracLen + d.frac) * 10000) + 10 ^ d.fracLen)
        / (2 * 10 ^ d.fracLen) % 10000)

/-- C7: `formatBalance` renders `"0"` as `"0.0000"` and `"1000.123456"` as
`"1,000.1235"` (rounded to 4 fraction digits, thousands-grouped), and on
every parseable decimal input its output ends in a `.` followed by exactly
four digit characters. -/
theorem formatBalance_spec :
    formatBalance "0" = "0.0000"
    ∧ formatBalance "1000.123456" = "1,000.1235"
    ∧ ∀ s d, parseDecimal s = some d →
        ((formatBalance s).data.reverse.take 4).all Char.isDigit = true
        ∧ ((formatBalance s).data.reverse.drop 4).take 1 = ['.'] := by
  refine ⟨by decide, by decide, ?_⟩
  intro s d hp
  have hfb : formatBalance s = toLocaleStringFixed4 d := by
    unfold formatBalance
    rw [hp]
  rw [hfb]
  exact toLocaleStringFixed4_shape d

/-- Witness for C7's universally quantified part at the input `"1.5"`. -/
theorem formatBalance_spec_witness :
    parseDecimal "1.5" = some { neg := false, int := 1, frac := 5, fracLen := 1 }
    ∧ ((formatBalance "1.5").data.reverse.take 4).all Char.isDigit = true
    ∧ ((formatBalance "1.5").data.reverse.drop 4).take 1 = ['.'] :=
  ⟨by decide,
   formatBalance_spec.2.2 "1.5" { neg := false, int := 1, frac := 5, fracLen := 1 }
     (by decide)⟩

end WalletWatcher
